import Mathlib

/-!
Shallow embedding of the report-rendering subsystem of `aggregator.py`
(`_write_markdown_report`, `_write_asciidoc_report`, `aggregate_results`).

Python records are modelled with `Option` fields (a `none` field means the
key is absent from the dict); `dict.get(k, d)` becomes `Option.getD`.
The dynamically typed `content` value of a section is the tagged union
`Content`: a plain string, a Python list (whose elements are strings or
nested section records), or a structured-items dict.  Fallible code (the
`s['title']` subscript in the AsciiDoc title pre-scan, which can raise
`KeyError`) is modelled with `Except Unit`.

Both writers are modelled as pure functions producing the exact sequence of
strings the Python code emits: `_write_markdown_report` as the list of
`f.write` payloads, `_write_asciidoc_report` as the `adoc_lines` list (the
file then receives `"\n".join(adoc_lines)`).
-/

/-- A scalar Python value stored in an item field (`primary` / `secondary` /
`tertiary`): the program stores strings and, for the `page` field of local
results, integers. -/
inductive PVal where
  | s (v : String)
  | n (v : Nat)
deriving DecidableEq

/-- Python truthiness of a scalar: the empty string and `0` are falsy. -/
def PVal.truthy : PVal → Bool
  | .s v => v != ""
  | .n v => v != 0

/-- Python `f"{x}"` formatting of a scalar (`str()`). -/
def PVal.fmt : PVal → String
  | .s v => v
  | .n v => toString v

/-- Python truthiness of an optional item field read with `item.get(k)`
(no default): an absent key is `None`, which is falsy. -/
def optTruthy : Option PVal → Bool
  | some v => v.truthy
  | none => false

/-- One record of a structured-items dict (`{"primary": ..., "secondary": ...,
"tertiary": ...}`); a `none` field means the key is absent. -/
structure SItem where
  primary : Option PVal
  secondary : Option PVal
  tertiary : Option PVal
deriving DecidableEq

mutual
/-- The value found under the `"content"` key of a section record:
a plain string, a Python list, or a structured-items dict
(`items` list plus the three caption keys `item_prefix`,
`secondary_prefix`, `tertiary_prefix`, modelled as `il`, `sl`, `tl`). -/
inductive Content where
  | str (v : String)
  | pylist (elems : List Elem)
  | dict (items : Option (List SItem)) (il sl tl : Option String)

/-- An element of a Python list used as section content: the program puts
either plain strings or nested section records (the per-domain sub-sections
of the grouped web results) into such lists. -/
inductive Elem where
  | str (v : String)
  | sec (s : Sec)

/-- A section record `{"level": ..., "title": ..., "content": ...}`;
a `none` field means the key is absent from the dict. -/
inductive Sec where
  | mk (level : Option Nat) (title : Option String) (content : Option Content)
end

/-- `section.get("level", ...)` source of the `"level"` key. -/
def Sec.level : Sec → Option Nat
  | .mk l _ _ => l

/-- `section.get("title", ...)` source of the `"title"` key. -/
def Sec.title : Sec → Option String
  | .mk _ t _ => t

/-- `section.get("content", ...)` source of the `"content"` key. -/
def Sec.content : Sec → Option Content
  | .mk _ _ c => c

/-- `c * n` for a character, as in Python `'#' * level`. -/
def strRep (c : Char) (n : Nat) : String :=
  String.mk (List.replicate n c)

/-- Python `s.startswith(p)`. -/
def strStartsWith (s p : String) : Bool :=
  p.data.isPrefixOf s.data

/-- Python `s.strip()`: drop whitespace from both ends. -/
def pyStrip (s : String) : String :=
  String.mk (((s.data.dropWhile Char.isWhitespace).reverse.dropWhile Char.isWhitespace).reverse)

/-- Python `s.replace('**', '*')`: left-to-right, non-overlapping. -/
def replaceStars : List Char → List Char
  | [] => []
  | [c] => [c]
  | c1 :: c2 :: rest =>
    if c1 = '*' && c2 = '*' then '*' :: replaceStars rest
    else c1 :: replaceStars (c2 :: rest)

/-- The basic emphasis conversion of the AsciiDoc writer:
`content.strip().replace('**', '*')`. -/
def adocText (s : String) : String :=
  String.mk (replaceStars (pyStrip s).data)

/-- A single-quote character (used by the Python `repr` of strings). -/
def sqc : String :=
  String.singleton (Char.ofNat 39)

/-- An opening curly brace character. -/
def lbr : String :=
  String.singleton (Char.ofNat 123)

/-- A closing curly brace character. -/
def rbr : String :=
  String.singleton (Char.ofNat 125)

/-- Python `repr` of a string value.  The embedding covers the strings this
development actually evaluates it on: strings without quote, backslash or
control characters (CPython would escape those). -/
def pyReprStr (v : String) : String :=
  sqc ++ v ++ sqc

/-- Python `repr` of a scalar item-field value. -/
def PVal.pyRepr : PVal → String
  | .s v => pyReprStr v
  | .n v => toString v

/-- Python `repr` of one structured item record, keys in the insertion order
used by `aggregate_results` (`primary`, `secondary`, `tertiary`). -/
def SItem.pyRepr (it : SItem) : String :=
  lbr ++ String.intercalate ", "
    ((match it.primary with
      | some v => [pyReprStr "primary" ++ ": " ++ v.pyRepr]
      | none => []) ++
     (match it.secondary with
      | some v => [pyReprStr "secondary" ++ ": " ++ v.pyRepr]
      | none => []) ++
     (match it.tertiary with
      | some v => [pyReprStr "tertiary" ++ ": " ++ v.pyRepr]
      | none => [])) ++ rbr

mutual
/-- Python `repr` (= `str`, as used by an f-string) of a section record,
keys in the insertion order used by `aggregate_results`
(`level`, `title`, `content`). -/
def pyReprSec : Sec → String
  | .mk lvl ttl c =>
    lbr ++ String.intercalate ", "
      ((match lvl with
        | some n => [pyReprStr "level" ++ ": " ++ toString n]
        | none => []) ++
       (match ttl with
        | some t => [pyReprStr "title" ++ ": " ++ pyReprStr t]
        | none => []) ++
       (match c with
        | some cc => [pyReprStr "content" ++ ": " ++ pyReprContent cc]
        | none => [])) ++ rbr

/-- Python `repr` of a content value. -/
def pyReprContent : Content → String
  | .str v => pyReprStr v
  | .pylist es => "[" ++ String.intercalate ", " (pyReprElems es) ++ "]"
  | .dict items il sl tl =>
    lbr ++ String.intercalate ", "
      ((match items with
        | some its =>
          [pyReprStr "items" ++ ": [" ++
            String.intercalate ", " (its.map SItem.pyRepr) ++ "]"]
        | none => []) ++
       (match il with
        | some v => [pyReprStr "item_prefix" ++ ": " ++ pyReprStr v]
        | none => []) ++
       (match sl with
        | some v => [pyReprStr "secondary_prefix" ++ ": " ++ pyReprStr v]
        | none => []) ++
       (match tl with
        | some v => [pyReprStr "tertiary_prefix" ++ ": " ++ pyReprStr v]
        | none => [])) ++ rbr

/-- Python `repr` of each element of a content list. -/
def pyReprElems : List Elem → List String
  | [] => []
  | e :: es => pyReprElem e :: pyReprElems es

/-- Python `repr` of a list element. -/
def pyReprElem : Elem → String
  | .str v => pyReprStr v
  | .sec s => pyReprSec s
end

/-- Python `f"{item}"` (`str()`) of a list element: a string formats as
itself, a section record formats as its dict `repr`. -/
def pyStrElem : Elem → String
  | .str v => v
  | .sec s => pyReprSec s

/-- Python `isinstance(content, str)` on a content value. -/
def pyIsStr : Content → Bool
  | .str _ => true
  | _ => false

/-- The string payload of a content value (meaningful only when `pyIsStr`
holds; the fallback is never reached by the renderers). -/
def strVal : Content → String
  | .str v => v
  | _ => ""

/-! ## Markdown renderer: `_write_markdown_report` -/

/-- The heading write of one Markdown section:
`if title: f.write(f"{'#' * level} {title}\n\n")`. -/
def mdHeading (s : Sec) : List String :=
  if s.title.getD "" ≠ "" then
    [strRep '#' (s.level.getD 1) ++ " " ++ s.title.getD "" ++ "\n\n"]
  else []

/-- The content writes of one Markdown section (the `isinstance` dispatch of
`_write_markdown_report`). -/
def mdContent (s : Sec) : List String :=
  match s.content.getD (Content.str "") with
  | .pylist elems =>
    elems.map (fun e => "- " ++ pyStrElem e ++ "\n") ++ ["\n"]
  | .dict items il sl tl =>
    ((items.getD []).map (fun it =>
      ("- **" ++ il.getD "URL" ++ ":** " ++ (it.primary.getD (.s "")).fmt ++ "\n")
      :: ((if optTruthy it.secondary then
            ["  - **" ++ sl.getD "Snippet" ++ ":** " ++ (it.secondary.getD (.s "")).fmt ++ "\n"]
          else []) ++
          (if optTruthy it.tertiary then
            ["  - **" ++ tl.getD "Tertiary" ++ ":** " ++ (it.tertiary.getD (.s "")).fmt ++ "\n"]
          else []) ++
          ["\n"]))).flatten
  | .str v =>
    if v ≠ "" then [pyStrip v ++ "\n\n"]
    else if s.title.getD "" ≠ "" then ["_No content for this section._\n\n"]
    else []

/-- All writes of one section of `_write_markdown_report`. -/
def mdSection (s : Sec) : List String :=
  mdHeading s ++ mdContent s

/-- `_write_markdown_report`: the sequence of `f.write` payloads; the file
receives their concatenation. -/
def writeMarkdownReport (doc : List Sec) : List String :=
  (doc.map mdSection).flatten

/-! ## AsciiDoc renderer: `_write_asciidoc_report` -/

/-- The `s['title']` subscript performed by the title pre-scan
`next((s['title'] for s in report_data if s.get('level') == 1), None)`
on the first section whose `level` key equals `1`: it raises `KeyError`
when that section has no `title` key. -/
def titleOfScan (s : Sec) : Except Unit (Option String) :=
  match s.title with
  | none => Except.error ()
  | some t => Except.ok (some t)

/-- Completion of the pre-scan: `none` when no section has `level == 1`,
otherwise the (fallible) title lookup on the section found. -/
def firstH1Title (doc : List Sec) : Except Unit (Option String) :=
  match doc.find? (fun s => s.level == some 1) with
  | none => Except.ok none
  | some s => titleOfScan s

/-- The heading step of one AsciiDoc section: either skip the first matching
H1 title (setting the `first_h1_skipped` flag), or emit
`f"{'=' * (level + 1)} {title}\n"`.  Returns the emitted lines and the
updated flag. -/
def adocHeading (firstH1 : Option String) (skipped : Bool) (s : Sec) :
    List String × Bool :=
  if s.level.getD 1 = 1 ∧ firstH1 = some (s.title.getD "") ∧ skipped = false then
    ([], true)
  else if s.title.getD "" ≠ "" then
    ([strRep '=' (s.level.getD 1 + 1) ++ " " ++ s.title.getD "" ++ "\n"], skipped)
  else ([], skipped)

/-- The content lines of one AsciiDoc section; `sk` is the value of
`first_h1_skipped` after the heading step of the same iteration (the
placeholder guard of the source reads the flag after its update). -/
def adocContent (firstH1 : Option String) (sk : Bool) (s : Sec) : List String :=
  match s.content.getD (Content.str "") with
  | .pylist elems =>
    elems.map (fun e => "* " ++ pyStrElem e) ++ [""]
  | .dict items il sl tl =>
    if items.getD [] ≠ [] then
      ((items.getD []).map (fun it =>
        (il.getD "URL" ++ ":: " ++ (it.primary.getD (.s "")).fmt)
        :: ((if (it.secondary.getD (.s "")).truthy then
              [sl.getD "Snippet" ++ "::: " ++ (it.secondary.getD (.s "")).fmt]
            else []) ++
            (if (it.tertiary.getD (.s "")).truthy then
              [tl.getD "Tertiary" ++ ":::: " ++ (it.tertiary.getD (.s "")).fmt]
            else []) ++
            [""]))).flatten
    else if pyIsStr (Content.dict items il sl tl) then
      [pyStrip (strVal (Content.dict items il sl tl)) ++ "\n"]
    else []
  | .str v =>
    if v ≠ "" then [adocText v ++ "\n"]
    else if s.title.getD "" ≠ "" ∧
        ¬(s.level.getD 1 = 1 ∧ firstH1 = some (s.title.getD "") ∧ sk = true) then
      ["_No content for this section._\n"]
    else []

/-- One loop iteration of `_write_asciidoc_report`: heading step, then
content step; returns the appended lines and the updated flag. -/
def adocSection (firstH1 : Option String) (skipped : Bool) (s : Sec) :
    List String × Bool :=
  ((adocHeading firstH1 skipped s).1 ++
    adocContent firstH1 (adocHeading firstH1 skipped s).2 s,
   (adocHeading firstH1 skipped s).2)

/-- The loop of `_write_asciidoc_report`, threading `first_h1_skipped`. -/
def adocBody (firstH1 : Option String) : Bool → List Sec → List String
  | _, [] => []
  | skipped, s :: rest =>
    (adocSection firstH1 skipped s).1 ++
      adocBody firstH1 (adocSection firstH1 skipped s).2 rest

/-- `_write_asciidoc_report`: the `adoc_lines` list (the file then receives
`"\n".join(adoc_lines)`); `Except.error` models the `KeyError` of the title
pre-scan. -/
def writeAsciidocReport (doc : List Sec) : Except Unit (List String) :=
  match firstH1Title doc with
  | Except.error e => Except.error e
  | Except.ok t =>
    Except.ok
      ((match t with
        | some v => if v ≠ "" then ["= " ++ v ++ "\n"] else []
        | none => []) ++ adocBody t false doc)

/-! ## Report builder and writer: `aggregate_results` -/

/-- A web result record `{url, snippet}` (fields may be absent). -/
structure WebResult where
  url : Option String
  snippet : Option String

/-- One grouped web result `{url, file_path, content_type}`. -/
structure GroupedItem where
  url : Option String
  file_path : Option String
  content_type : Option String

/-- The `metadata` dict of a local result `{file_path, page?, snippet}`;
`page = none` means the `page` key is absent. -/
structure LocalMeta where
  file_path : Option String
  page : Option Nat
  snippet : Option String

/-- A local result record; `metadata = none` means the key is absent
(`doc.get('metadata', {})` then yields an empty dict). -/
structure LocalResult where
  metadata : Option LocalMeta

/-- The empty metadata dict. -/
def emptyMeta : LocalMeta := ⟨none, none, none⟩

/-- `final_report_data`: the answer-only document. -/
def finalReportData (final_answer : String) : List Sec :=
  [⟨some 1, some "Final Aggregated Answer (RAG)", some (.str final_answer)⟩]

/-- `web_section_content`: structured items over the web results, or the
placeholder string when `web_results` is empty (Python truthiness). -/
def webSectionContent (web_results : List WebResult) : Content :=
  if web_results.isEmpty then Content.str "_No web results found_"
  else
    Content.dict
      (some (web_results.map (fun it =>
        ⟨some (.s (it.url.getD "")), some (.s (it.snippet.getD "")), none⟩)))
      (some "URL") (some "Snippet") none

/-- `domain_content` for one group of the grouped web results. -/
def domainContent (items : List GroupedItem) : Content :=
  Content.dict
    (some (items.map (fun it =>
      ⟨some (.s (it.url.getD "")), some (.s (it.file_path.getD "")),
       some (.s (it.content_type.getD ""))⟩)))
    (some "URL") (some "File Path") (some "Content Type")

/-- `grouped_section`: one level-3 sub-section record per domain, collected
in a Python list used as the content of the level-2 grouped section.
`grouped_web_results` is an (insertion-ordered) association list, matching
Python dict iteration order. -/
def groupedSection (g : List (String × List GroupedItem)) : Sec :=
  ⟨some 2, some "Grouped Web Results by Domain",
   some (.pylist (g.map (fun p =>
     .sec ⟨some 3, some ("Domain: " ++ p.1), some (domainContent p.2)⟩)))⟩

/-- `item_data` for one local result: `primary` is the file path; if the
metadata has a `page` key, `secondary` is the page and `tertiary` the
snippet, otherwise `secondary` is the snippet and no `tertiary` key is set. -/
def localItem (doc : LocalResult) : SItem :=
  match (doc.metadata.getD emptyMeta).page with
  | some p =>
    ⟨some (.s ((doc.metadata.getD emptyMeta).file_path.getD "")),
     some (.n p),
     some (.s ((doc.metadata.getD emptyMeta).snippet.getD ""))⟩
  | none =>
    ⟨some (.s ((doc.metadata.getD emptyMeta).file_path.getD "")),
     some (.s ((doc.metadata.getD emptyMeta).snippet.getD "")),
     none⟩

/-- `local_section_content`: structured items over the local results, or the
placeholder string when `local_results` is empty. -/
def localSectionContent (local_results : List LocalResult) : Content :=
  if local_results.isEmpty then Content.str "_No local results found_"
  else
    Content.dict (some (local_results.map localItem))
      (some "File") (some "Page") (some "Snippet")

/-- `aggregator_report_data`: the full document, in construction order.
The optional text sections are guarded by Python truthiness (`None` and the
empty value are skipped). -/
def aggregatorReportData (query_id enhanced_query : String)
    (web_results : List WebResult) (local_results : List LocalResult)
    (final_answer : String)
    (grouped_web_results : Option (List (String × List GroupedItem)))
    (previous_results follow_up_conversation : Option String) : List Sec :=
  ⟨some 1, some ("Aggregated Results for Query ID: " ++ query_id), none⟩ ::
  ⟨some 2, some "Enhanced Query", some (.str enhanced_query)⟩ ::
  ⟨some 1, some "Final Aggregated Answer (RAG)", some (.str final_answer)⟩ ::
  ⟨some 2, some "Web Search Results", some (webSectionContent web_results)⟩ ::
  ((if (grouped_web_results.getD []).isEmpty then []
    else [groupedSection (grouped_web_results.getD [])]) ++
   (⟨some 2, some "Local Retrieval Results", some (localSectionContent local_results)⟩ ::
    ((match previous_results with
      | some p => if p ≠ "" then
          [(⟨some 2, some "Previous Results Integrated", some (.str p)⟩ : Sec)]
        else []
      | none => []) ++
     (match follow_up_conversation with
      | some p => if p ≠ "" then
          [(⟨some 2, some "Follow-Up Conversation", some (.str p)⟩ : Sec)]
        else []
      | none => []))))

/-- `os.path.join` for the two-argument POSIX case. -/
def pathJoin (a b : String) : String :=
  if b.data.head? == some '/' then b
  else if a.data.isEmpty || a.data.getLast? == some '/' then a ++ b
  else a ++ "/" ++ b

/-- The observable effects of one `aggregate_results` call: the directory
passed to `os.makedirs` (with `exist_ok=True`), the `(path, text)` pairs
written, in order, and the returned path. -/
structure AggregateOutput where
  outputDir : String
  mkdirExistOk : Bool
  writes : List (String × String)
  returned : String

/-- `aggregate_results`: builds the two documents, renders and "writes" the
four files, and returns the Markdown aggregator path.  The `Except` layer
models the `KeyError` that the AsciiDoc title pre-scan could raise (on these
two documents it never fires); a raise aborts the call. -/
def aggregate_results (query_id enhanced_query : String)
    (web_results : List WebResult) (local_results : List LocalResult)
    (final_answer : String) (config : Option String)
    (grouped_web_results : Option (List (String × List GroupedItem)))
    (previous_results follow_up_conversation : Option String) :
    Except Unit AggregateOutput :=
  let base_dir := config.getD "results"
  let output_dir := pathJoin base_dir query_id
  let final_report_data := finalReportData final_answer
  let aggregator_report_data :=
    aggregatorReportData query_id enhanced_query web_results local_results
      final_answer grouped_web_results previous_results follow_up_conversation
  let final_report_md_path := pathJoin output_dir "final_report.md"
  let final_report_adoc_path := pathJoin output_dir "final_report.adoc"
  let aggregator_md_path := pathJoin output_dir (query_id ++ "_output.md")
  let aggregator_adoc_path := pathJoin output_dir (query_id ++ "_output.adoc")
  match writeAsciidocReport final_report_data with
  | Except.error e => Except.error e
  | Except.ok finalAdoc =>
    match writeAsciidocReport aggregator_report_data with
    | Except.error e => Except.error e
    | Except.ok aggAdoc =>
      Except.ok
        { outputDir := output_dir
          mkdirExistOk := true
          writes :=
            [(final_report_md_path, String.join (writeMarkdownReport final_report_data)),
             (final_report_adoc_path, String.intercalate "\n" finalAdoc),
             (aggregator_md_path, String.join (writeMarkdownReport aggregator_report_data)),
             (aggregator_adoc_path, String.intercalate "\n" aggAdoc)]
          returned := aggregator_md_path }

/-! ## Helper lemmas -/

/-- The title pre-scan generator stops at the first section whose `level`
key equals `1`; sections without that property are skipped. -/
theorem find_first_h1_eq (pre post : List Sec) (s : Sec)
    (hpre : ∀ p ∈ pre, p.level ≠ some 1) (hs : s.level = some 1) :
    (pre ++ s :: post).find? (fun x => x.level == some 1) = some s := by
  induction pre with
  | nil =>
    simp [List.find?, hs]
  | cons p ps ih =>
    have hp : (p.level == some 1) = false := by
      simpa using hpre p (List.mem_cons_self p ps)
    simp only [List.cons_append, List.find?_cons, hp]
    exact ih fun q hq => hpre q (List.mem_cons_of_mem p hq)

/-- A section whose looked-up level (`section.get("level", 1)`) is not `1`
leaves the `first_h1_skipped` flag unchanged. -/
theorem adocSection_flag_of_level_ne_one (firstH1 : Option String) (sk : Bool)
    (p : Sec) (hp : p.level.getD 1 ≠ 1) : (adocSection firstH1 sk p).2 = sk := by
  show (adocHeading firstH1 sk p).2 = sk
  unfold adocHeading
  rw [if_neg fun h => hp h.1]
  split <;> rfl

/-- The AsciiDoc loop distributes over an append whose first part contains
no section of looked-up level `1` (the flag stays `false` across it). -/
theorem adocBody_append_of_no_h1 (firstH1 : Option String) (pre rest : List Sec)
    (hpre : ∀ p ∈ pre, p.level.getD 1 ≠ 1) :
    adocBody firstH1 false (pre ++ rest) =
      adocBody firstH1 false pre ++ adocBody firstH1 false rest := by
  induction pre with
  | nil => simp [adocBody]
  | cons p ps ih =>
    have hflag := adocSection_flag_of_level_ne_one firstH1 false p
      (hpre p (List.mem_cons_self p ps))
    simp only [List.cons_append, adocBody, hflag, List.append_eq]
    rw [ih fun q hq => hpre q (List.mem_cons_of_mem p hq), List.append_assoc]

/-! ## Claims -/

/-- Claim C2 (code bug).  The claim says rendering never raises when optional
fields are missing and that the structured-markup renderer succeeds on a
document whose first `level == 1` section has no `title` key at all.  The
code evaluates `s['title']` in the title pre-scan, which raises `KeyError`
on exactly that input; the Markdown renderer, by contrast, degrades to empty
output on the same document. -/
theorem c2_asciidoc_prescan_keyerror :
    writeAsciidocReport [⟨some 1, none, none⟩] = Except.error () ∧
    writeMarkdownReport [⟨some 1, none, none⟩] = [] :=
  ⟨rfl, rfl⟩

/-- Claim C3 (counterexample).  Document whose first level-1 section has an
empty title and whose later level-1 section is titled `"Alpha"`: the claim
predicts the document-title line `"= Alpha\n"` at the top and the later
section elided; the code emits no document-title line at all and renders the
later section as the ordinary body heading `"== Alpha\n"`. -/
theorem c3_prescan_counterexample :
    writeAsciidocReport [⟨some 1, some "", none⟩, ⟨some 1, some "Alpha", none⟩] =
      Except.ok ["== Alpha\n", "_No content for this section._\n"] ∧
    "= Alpha\n" ∉ (["== Alpha\n", "_No content for this section._\n"] : List String) ∧
    "== Alpha\n" ∈ (["== Alpha\n", "_No content for this section._\n"] : List String) :=
  ⟨rfl, by decide, by decide⟩

/-- Claim C3 (amended).  The pre-scan selects the first section with
`level == 1` regardless of its title: its title (if the key is present)
becomes the candidate document title, which is emitted only when non-empty;
a later level-1 section with a non-empty title is never selected. -/
theorem c3_prescan_first_h1_any_title (pre post : List Sec) (s : Sec)
    (hpre : ∀ p ∈ pre, p.level ≠ some 1) (hs : s.level = some 1) :
    firstH1Title (pre ++ s :: post) =
      (match s.title with
       | some t => Except.ok (some t)
       | none => Except.error ()) ∧
    (∀ t, s.title = some t →
      writeAsciidocReport (pre ++ s :: post) =
        Except.ok ((if t ≠ "" then ["= " ++ t ++ "\n"] else []) ++
          adocBody (some t) false (pre ++ s :: post))) := by
  have hfind := find_first_h1_eq pre post s hpre hs
  constructor
  · unfold firstH1Title
    rw [hfind]
    show titleOfScan s = _
    unfold titleOfScan
    cases s.title <;> rfl
  · intro t ht
    have hscan : firstH1Title (pre ++ s :: post) = Except.ok (some t) := by
      unfold firstH1Title
      rw [hfind]
      show titleOfScan s = _
      unfold titleOfScan
      rw [ht]
    unfold writeAsciidocReport
    rw [hscan]

/-- Witness for C3: with an untitled level-2 section first, an empty-titled
level-1 section second and a `"Beta"`-titled level-1 section third, the scan
yields the empty title, no document-title line is emitted, and `"Beta"`
appears only as a body heading. -/
theorem c3_prescan_first_h1_any_title_witness :
    firstH1Title [⟨some 2, some "A", none⟩, ⟨some 1, some "", none⟩,
        ⟨some 1, some "Beta", none⟩] = Except.ok (some "") ∧
    writeAsciidocReport [⟨some 2, some "A", none⟩, ⟨some 1, some "", none⟩,
        ⟨some 1, some "Beta", none⟩] =
      Except.ok ["=== A\n", "_No content for this section._\n", "== Beta\n",
        "_No content for this section._\n"] := by
  have h := c3_prescan_first_h1_any_title [⟨some 2, some "A", none⟩]
    [⟨some 1, some "Beta", none⟩] ⟨some 1, some "", none⟩
    (fun p hp => by rw [List.mem_singleton] at hp; subst hp; decide) rfl
  exact ⟨h.1, (h.2 "" rfl).trans (by rfl)⟩

/-- Claim C4 (counterexample).  The answer-only document's section title is
not `"Final Aggregated Answer"`. -/
theorem c4_answer_title_counterexample :
    (finalReportData "x").map Sec.title ≠ [some "Final Aggregated Answer"] := by
  decide

/-- Claim C4 (amended).  The answer-only document is a single section of
level 1 titled `"Final Aggregated Answer (RAG)"` with the final answer as
its text content, and the full document duplicates a section with the very
same title and content at its third position. -/
theorem c4_answer_document_structure (final_answer query_id enhanced_query : String)
    (web_results : List WebResult) (local_results : List LocalResult)
    (grouped_web_results : Option (List (String × List GroupedItem)))
    (previous_results follow_up_conversation : Option String) :
    finalReportData final_answer =
      [⟨some 1, some "Final Aggregated Answer (RAG)", some (.str final_answer)⟩] ∧
    (aggregatorReportData query_id enhanced_query web_results local_results
        final_answer grouped_web_results previous_results follow_up_conversation).get? 2 =
      some ⟨some 1, some "Final Aggregated Answer (RAG)", some (.str final_answer)⟩ :=
  ⟨rfl, rfl⟩

/-- Claim C5 (counterexample).  Document whose first level-1 section has an
empty title while its first level-1 *titled* section is titled `"Report"`:
the claim predicts `"Report"` emitted exactly once as the top document-title
line; the code emits no document-title line (no line starts with `"= "`) and
renders `"Report"` as an ordinary body heading. -/
theorem c5_title_line_counterexample :
    writeAsciidocReport [⟨some 1, some "", none⟩,
        ⟨some 1, some "Report", some (.str "body text")⟩] =
      Except.ok ["== Report\n", "body text\n"] ∧
    (["== Report\n", "body text\n"].all fun l => !(strStartsWith l "= ")) = true :=
  ⟨rfl, by decide⟩

/-- Claim C5 (amended).  For a document all of whose sections carry a
`level` key and whose *first level-1 section* has a non-empty title `T`:
exactly one document-title line `"= T\n"` is emitted, at the top; that
section is not re-emitted as a body heading; and its content is still
rendered at its position in the sequence. -/
theorem c5_title_elision (pre post : List Sec) (s : Sec) (T : String)
    (hpre : ∀ p ∈ pre, ∃ n, p.level = some n ∧ n ≠ 1)
    (hlvl : s.level = some 1) (ht : s.title = some T) (hT : T ≠ "") :
    writeAsciidocReport (pre ++ s :: post) =
      Except.ok (("= " ++ T ++ "\n") ::
        (adocBody (some T) false pre ++
          (adocContent (some T) true s ++ adocBody (some T) true post))) := by
  have hpre1 : ∀ p ∈ pre, p.level ≠ some 1 := by
    intro p hp
    obtain ⟨n, hn, hne⟩ := hpre p hp
    rw [hn]
    simpa using hne
  have hpre2 : ∀ p ∈ pre, p.level.getD 1 ≠ 1 := by
    intro p hp
    obtain ⟨n, hn, hne⟩ := hpre p hp
    rw [hn]
    simpa using hne
  have hscan : firstH1Title (pre ++ s :: post) = Except.ok (some T) := by
    unfold firstH1Title
    rw [find_first_h1_eq pre post s hpre1 hlvl]
    show titleOfScan s = _
    unfold titleOfScan
    rw [ht]
  have helide : adocHeading (some T) false s = ([], true) := by
    unfold adocHeading
    rw [if_pos ⟨by rw [hlvl]; rfl, by rw [ht]; rfl, rfl⟩]
  unfold writeAsciidocReport
  rw [hscan]
  show Except.ok ((if T ≠ "" then ["= " ++ T ++ "\n"] else []) ++
    adocBody (some T) false (pre ++ s :: post)) = _
  rw [if_pos hT, adocBody_append_of_no_h1 (some T) pre (s :: post) hpre2]
  simp only [adocBody, adocSection, helide, List.nil_append,
    List.singleton_append, List.append_assoc]

/-- Witness for C5: a concrete two-section document whose first level-1
section is titled `"Answer"`; the output is the title line followed by the
body, with the title section's content (`"forty two"`) rendered in place and
no `"== Answer"` heading. -/
theorem c5_title_elision_witness :
    writeAsciidocReport [⟨some 2, some "Intro", some (.str "x")⟩,
        ⟨some 1, some "Answer", some (.str "forty two")⟩] =
      Except.ok ["= Answer\n", "=== Intro\n", "x\n", "forty two\n"] := by
  have h := c5_title_elision [⟨some 2, some "Intro", some (.str "x")⟩] []
    ⟨some 1, some "Answer", some (.str "forty two")⟩ "Answer"
    (fun p hp => by
      rw [List.mem_singleton] at hp
      subst hp
      exact ⟨2, rfl, by decide⟩)
    rfl rfl (by decide)
  exact h.trans (by rfl)

/-- Claim C7.  With `web_results = []`, the built full document's fourth
section is titled `"Web Search Results"` and its content is the plain
placeholder string `"_No web results found_"` — the `Content.str` variant,
distinct from the `Content.dict` structured-items variant used when web
results exist. -/
theorem c7_empty_web_results_placeholder (query_id enhanced_query : String)
    (local_results : List LocalResult) (final_answer : String)
    (grouped_web_results : Option (List (String × List GroupedItem)))
    (previous_results follow_up_conversation : Option String) :
    (aggregatorReportData query_id enhanced_query [] local_results final_answer
        grouped_web_results previous_results follow_up_conversation).get? 3 =
      some ⟨some 2, some "Web Search Results",
        some (Content.str "_No web results found_")⟩ ∧
    webSectionContent [] = Content.str "_No web results found_" :=
  ⟨rfl, rfl⟩

/-- Claim C6.  A section with a non-empty title that is not the elided
document-title section gets, in the structured-markup output, a heading of
exactly `level + 1` copies of the marker character followed by the title,
and, in the Markdown output, a heading of exactly `level` copies of its
marker character (`level` is the looked-up `section.get("level", 1)`). -/
theorem c6_heading_markers (s : Sec) (firstH1 : Option String) (skipped : Bool)
    (ht : s.title.getD "" ≠ "")
    (hel : ¬(s.level.getD 1 = 1 ∧ firstH1 = some (s.title.getD "") ∧ skipped = false)) :
    (adocSection firstH1 skipped s).1.head? =
      some (strRep '=' (s.level.getD 1 + 1) ++ " " ++ s.title.getD "" ++ "\n") ∧
    (mdSection s).head? =
      some (strRep '#' (s.level.getD 1) ++ " " ++ s.title.getD "" ++ "\n\n") := by
  constructor
  · show ((adocHeading firstH1 skipped s).1 ++ _).head? = _
    unfold adocHeading
    rw [if_neg hel, if_pos ht]
    rfl
  · show (mdHeading s ++ _).head? = _
    unfold mdHeading
    rw [if_pos ht]
    rfl

/-- Witness for C6: a level-2 section titled `"W"`, in a document whose
title section is some other section: `"=== W\n"` versus `"## W\n\n"`. -/
theorem c6_heading_markers_witness :
    (adocSection (some "Q") false ⟨some 2, some "W", none⟩).1.head? =
      some "=== W\n" ∧
    (mdSection ⟨some 2, some "W", none⟩).head? = some "## W\n\n" := by
  have h := c6_heading_markers ⟨some 2, some "W", none⟩ (some "Q") false
    (by decide) (by decide)
  exact h

/-- Claim C8.  The builder maps each local result's metadata to a
structured item with `primary` the file path; when the metadata carries a
`page` key, `secondary` is the page value and `tertiary` the snippet, and
when it does not, `secondary` is the snippet and no `tertiary` field is
set.  The items appear, in order, in the `"Local Retrieval Results"`
section content. -/
theorem c8_local_metadata_mapping (m : LocalMeta) (rest : List LocalResult) :
    localSectionContent (⟨some m⟩ :: rest) =
      Content.dict (some (localItem ⟨some m⟩ :: rest.map localItem))
        (some "File") (some "Page") (some "Snippet") ∧
    (∀ p, m.page = some p →
      localItem ⟨some m⟩ =
        ⟨some (.s (m.file_path.getD "")), some (.n p),
         some (.s (m.snippet.getD ""))⟩) ∧
    (m.page = none →
      localItem ⟨some m⟩ =
        ⟨some (.s (m.file_path.getD "")), some (.s (m.snippet.getD "")),
         none⟩) := by
  refine ⟨rfl, ?_, ?_⟩
  · intro p hp
    unfold localItem
    simp [hp]
  · intro hp
    unfold localItem
    simp [hp]

/-- Witness for C8: the spec's example metadata
`{file_path: "a.pdf", page: 3, snippet: "hello"}` maps to
`primary = "a.pdf"`, `secondary = 3`, `tertiary = "hello"`; without the
`page` key, `secondary = "hello"` and `tertiary` is absent. -/
theorem c8_local_metadata_mapping_witness :
    localItem ⟨some ⟨some "a.pdf", some 3, some "hello"⟩⟩ =
      ⟨some (.s "a.pdf"), some (.n 3), some (.s "hello")⟩ ∧
    localItem ⟨some ⟨some "a.pdf", none, some "hello"⟩⟩ =
      ⟨some (.s "a.pdf"), some (.s "hello"), none⟩ := by
  have h1 := (c8_local_metadata_mapping ⟨some "a.pdf", some 3, some "hello"⟩ []).2.1 3 rfl
  have h2 := (c8_local_metadata_mapping ⟨some "a.pdf", none, some "hello"⟩ []).2.2 rfl
  exact ⟨h1, h2⟩

/-- Claim C10.  For a section whose content is a structured-items dict with
an empty items list, both renderers emit no content lines at all — in
particular no `"_No content for this section._"` placeholder, even when the
section's title was emitted — and the AsciiDoc branch that would render a
string inside the dict case is unreachable: `isinstance(content, str)` is
false for every dict content value. -/
theorem c10_empty_structured_items (s : Sec) (items : Option (List SItem))
    (il sl tl : Option String)
    (hc : s.content = some (Content.dict items il sl tl))
    (hi : items.getD [] = []) :
    mdContent s = [] ∧
    (∀ firstH1 sk, adocContent firstH1 sk s = []) ∧
    (∀ i a b c, pyIsStr (Content.dict i a b c) = false) := by
  refine ⟨?_, ?_, fun _ _ _ _ => rfl⟩
  · unfold mdContent
    rw [hc]
    show ((items.getD []).map _).flatten = []
    rw [hi]
    rfl
  · intro firstH1 sk
    unfold adocContent
    rw [hc]
    show (if items.getD [] ≠ [] then _ else _) = []
    rw [hi]
    rfl

/-- Witness for C10: a titled section with an empty structured-items dict;
neither renderer emits content lines, and the heading is still the only
Markdown output of the section. -/
theorem c10_empty_structured_items_witness :
    mdContent ⟨some 2, some "Web Search Results",
        some (Content.dict (some []) (some "URL") (some "Snippet") none)⟩ = [] ∧
    adocContent none false ⟨some 2, some "Web Search Results",
        some (Content.dict (some []) (some "URL") (some "Snippet") none)⟩ = [] := by
  have h := c10_empty_structured_items
    ⟨some 2, some "Web Search Results",
      some (Content.dict (some []) (some "URL") (some "Snippet") none)⟩
    (some []) (some "URL") (some "Snippet") none rfl rfl
  exact ⟨h.1, h.2.1 none false⟩

/-- A concrete grouped web result used to exercise the nested-section
rendering path (claim C1). -/
def c1Items : List GroupedItem :=
  [⟨some "http://example.com/a", some "downloads/a.html", some "text/html"⟩]

/-- A grouped-results mapping with the single domain `"example.com"`. -/
def c1Grouped : List (String × List GroupedItem) :=
  [("example.com", c1Items)]

/-- The level-3 sub-section record the builder creates for that domain. -/
def c1SubSec : Sec :=
  ⟨some 3, some ("Domain: " ++ "example.com"), some (domainContent c1Items)⟩

/-- Claim C1 (code bug).  The claim (and spec) say both renderers render a
Nested sub-sequence of sections recursively in place, emitting the
sub-sections' headings and structured content.  Neither does: both treat
the sub-sequence as a plain item list, emitting one bullet whose text is
the Python `repr` of the raw sub-section dict.  On the grouped section for
domain `"example.com"`, the Markdown renderer emits `"- {'level': 3, ...}"`
and the AsciiDoc renderer `"* {'level': 3, ...}"`; no heading for
`"Domain: example.com"` is ever produced (no emitted line even starts with
the marker sequence a recursive rendering would use). -/
theorem c1_grouped_results_rendered_flat :
    mdSection (groupedSection c1Grouped) =
      ["## Grouped Web Results by Domain\n\n",
       "- " ++ pyReprSec c1SubSec ++ "\n", "\n"] ∧
    (adocSection none false (groupedSection c1Grouped)).1 =
      ["=== Grouped Web Results by Domain\n",
       "* " ++ pyReprSec c1SubSec, ""] ∧
    ((mdSection (groupedSection c1Grouped)).all
      fun l => !(strStartsWith l "###")) = true ∧
    (((adocSection none false (groupedSection c1Grouped)).1).all
      fun l => !(strStartsWith l "====")) = true ∧
    "### Domain: example.com\n\n" ∉ mdSection (groupedSection c1Grouped) ∧
    "==== Domain: example.com\n" ∉ (adocSection none false (groupedSection c1Grouped)).1 := by
  refine ⟨rfl, rfl, by decide, by decide, by decide, by decide⟩

/-- `os.path.join(a, b)` is plain slash concatenation when `b` does not
start with a slash and `a` is non-empty and does not end with one. -/
theorem pathJoin_eq (a b : String)
    (hb : (b.data.head? == some '/') = false)
    (ha : (a.data.isEmpty || a.data.getLast? == some '/') = false) :
    pathJoin a b = a ++ "/" ++ b := by
  simp [pathJoin, hb, ha]

/-- A concatenation of two strings neither of which starts with a slash
does not start with a slash. -/
theorem head_slash_append (a b : String)
    (ha : (a.data.head? == some '/') = false)
    (hb : (b.data.head? == some '/') = false) :
    ((a ++ b).data.head? == some '/') = false := by
  show ((a.data ++ b.data).head? == some '/') = false
  cases a with
  | mk d =>
    cases d with
    | nil => exact hb
    | cons c t => exact ha

/-- `B ++ "/" ++ Q` is non-empty and, when `Q` is non-empty and does not
end with a slash, does not end with a slash either. -/
theorem tail_slash_concat (B Q : String) (hq3 : Q ≠ "")
    (hq2 : (Q.data.getLast? == some '/') = false) :
    ((B ++ "/" ++ Q).data.isEmpty ||
      (B ++ "/" ++ Q).data.getLast? == some '/') = false := by
  have hQd : Q.data ≠ [] := by
    intro hd
    apply hq3
    cases Q with
    | mk d => rw [show d = [] from hd]
  show ((B.data ++ ['/'] ++ Q.data).isEmpty ||
    (B.data ++ ['/'] ++ Q.data).getLast? == some '/') = false
  rw [List.getLast?_append_of_ne_nil _ hQd, hq2]
  simp [hQd]

/-- Claim C9.  For a query identifier that is non-empty, does not start and
does not end with a slash, and a configured base directory (default
`"results"` when the `results_base_dir` option is absent) that is non-empty
and does not end with a slash: `aggregate_results` succeeds, creates
`B/Q` with `exist_ok=True`, writes exactly four files at
`B/Q/final_report.md`, `B/Q/final_report.adoc`, `B/Q/Q_output.md` and
`B/Q/Q_output.adoc`, in that order, and returns `B/Q/Q_output.md`. -/
theorem c9_four_files_written (query_id enhanced_query : String)
    (web_results : List WebResult) (local_results : List LocalResult)
    (final_answer : String) (config : Option String)
    (grouped_web_results : Option (List (String × List GroupedItem)))
    (previous_results follow_up_conversation : Option String)
    (hq1 : (query_id.data.head? == some '/') = false)
    (hq2 : (query_id.data.getLast? == some '/') = false)
    (hq3 : query_id ≠ "")
    (hb : ((config.getD "results").data.isEmpty ||
      (config.getD "results").data.getLast? == some '/') = false) :
    ∃ out, aggregate_results query_id enhanced_query web_results local_results
        final_answer config grouped_web_results previous_results
        follow_up_conversation = Except.ok out ∧
      out.writes.map Prod.fst =
        [config.getD "results" ++ "/" ++ query_id ++ "/" ++ "final_report.md",
         config.getD "results" ++ "/" ++ query_id ++ "/" ++ "final_report.adoc",
         config.getD "results" ++ "/" ++ query_id ++ "/" ++ (query_id ++ "_output.md"),
         config.getD "results" ++ "/" ++ query_id ++ "/" ++ (query_id ++ "_output.adoc")] ∧
      out.returned =
        config.getD "results" ++ "/" ++ query_id ++ "/" ++ (query_id ++ "_output.md") ∧
      out.writes.length = 4 ∧
      out.outputDir = config.getD "results" ++ "/" ++ query_id ∧
      out.mkdirExistOk = true := by
  have hBQ : pathJoin (config.getD "results") query_id =
      config.getD "results" ++ "/" ++ query_id :=
    pathJoin_eq _ _ hq1 hb
  have hD := tail_slash_concat (config.getD "results") query_id hq3 hq2
  have hp1 : pathJoin (config.getD "results" ++ "/" ++ query_id) "final_report.md" =
      config.getD "results" ++ "/" ++ query_id ++ "/" ++ "final_report.md" :=
    pathJoin_eq _ _ (by rfl) hD
  have hp2 : pathJoin (config.getD "results" ++ "/" ++ query_id) "final_report.adoc" =
      config.getD "results" ++ "/" ++ query_id ++ "/" ++ "final_report.adoc" :=
    pathJoin_eq _ _ (by rfl) hD
  have hp3 : pathJoin (config.getD "results" ++ "/" ++ query_id) (query_id ++ "_output.md") =
      config.getD "results" ++ "/" ++ query_id ++ "/" ++ (query_id ++ "_output.md") :=
    pathJoin_eq _ _ (head_slash_append query_id "_output.md" hq1 (by rfl)) hD
  have hp4 : pathJoin (config.getD "results" ++ "/" ++ query_id) (query_id ++ "_output.adoc") =
      config.getD "results" ++ "/" ++ query_id ++ "/" ++ (query_id ++ "_output.adoc") :=
    pathJoin_eq _ _ (head_slash_append query_id "_output.adoc" hq1 (by rfl)) hD
  refine ⟨_, rfl, ?_, ?_, rfl, ?_, rfl⟩
  · show [pathJoin (pathJoin (config.getD "results") query_id) "final_report.md",
          pathJoin (pathJoin (config.getD "results") query_id) "final_report.adoc",
          pathJoin (pathJoin (config.getD "results") query_id) (query_id ++ "_output.md"),
          pathJoin (pathJoin (config.getD "results") query_id) (query_id ++ "_output.adoc")] = _
    rw [hBQ, hp1, hp2, hp3, hp4]
  · show pathJoin (pathJoin (config.getD "results") query_id) (query_id ++ "_output.md") = _
    rw [hBQ, hp3]
  · show pathJoin (config.getD "results") query_id = _
    exact hBQ

/-- Witness for C9: query id `"q1"` with no configured base directory; the
four files land under `results/q1` and `results/q1/q1_output.md` comes
back. -/
theorem c9_four_files_written_witness :
    ∃ out, aggregate_results "q1" "" [] [] "" none none none none =
        Except.ok out ∧
      out.writes.map Prod.fst =
        ["results/q1/final_report.md", "results/q1/final_report.adoc",
         "results/q1/q1_output.md", "results/q1/q1_output.adoc"] ∧
      out.returned = "results/q1/q1_output.md" ∧
      out.writes.length = 4 ∧
      out.outputDir = "results/q1" ∧
      out.mkdirExistOk = true := by
  obtain ⟨out, h1, h2, h3, h4, h5, h6⟩ :=
    c9_four_files_written "q1" "" [] [] "" none none none none
      rfl rfl (by decide) rfl
  exact ⟨out, h1, h2.trans (by rfl), h3.trans (by rfl), h4, h5.trans (by rfl), h6⟩
